import Mathlib

/-
Shallow embedding of the SmartSpendAssistant server's ledger engine:
the transaction create/update/delete routes, the debt repayment and
debt-collection routes, and the wallet / category / transaction records
they manipulate.  Amounts and balances are JavaScript numbers in the
source; they are embedded as integers (the routes only add, subtract and compare amounts, so the arithmetic is exact over ℤ).  Identifiers (Mongo ObjectIds)
are embedded as naturals.  The `date` and `message_id` fields, whose
values depend on the wall clock and which no verified property mentions,
are not carried in the embedded records.  `DB.transaction` (all writes
commit together or none do) is embedded by making each route a pure
function returning `Except Err St`: an `.error` outcome leaves the store
exactly as it was.  `Err` is the payload of the source's `CustomError`,
which the error-handling layer maps unchanged onto the HTTP response.
-/

namespace SpendLedger

/-- Payload of a thrown `CustomError(message, status)`. -/
structure Err where
  message : String
  status : Nat
deriving Repr, DecidableEq

/-- Wallet document (`models/Wallet`): fields used by the ledger routes. -/
structure Wallet where
  user_id : Nat
  name : String
  balance : Int
  threshold : Int
deriving Repr, DecidableEq

/-- Category document (`models/Category`).  `type` is a free-form string in
the store; the category create/update routes restrict it to
income/expense/debt/loan, but the ledger routes compare it as a string. -/
structure Category where
  user_id : Nat
  name : String
  type : String
deriving Repr, DecidableEq

/-- Transaction document (`models/Transaction`), without the clock-dependent
`date` and the inert `message_id`. -/
structure Txn where
  name : String
  description : String
  ammount : Int
  category_id : Nat
  wallet_id : Nat
  parent_id : Option Nat
  remaining_ammount : Int
deriving Repr, DecidableEq

/-- The data store: the three collections touched by the ledger routes,
each an association list from document id to document. -/
structure St where
  wallets : List (Nat × Wallet)
  categories : List (Nat × Category)
  transactions : List (Nat × Txn)
deriving Repr, DecidableEq

/-- First row with the given id (`Model.where('_id', id).first()` / `Model.find(id)`). -/
def findById {α : Type} (rows : List (Nat × α)) (id : Nat) : Option α :=
  match rows with
  | [] => none
  | (k, v) :: rest => if k = id then some v else findById rest id

/-- Apply `f` to every row with the given id (`Model.where('_id', id).update(...)`). -/
def updateById {α : Type} (rows : List (Nat × α)) (id : Nat) (f : α → α) :
    List (Nat × α) :=
  match rows with
  | [] => []
  | (k, v) :: rest => (if k = id then (k, f v) else (k, v)) :: updateById rest id f

/-- Rows whose `parent_id` equals the given id
(`Transaction.where('parent_id', id).get()`). -/
def childrenOf (rows : List (Nat × Txn)) (pid : Nat) : List (Nat × Txn) :=
  rows.filter (fun p => decide (p.2.parent_id = some pid))

/-- Sum of the `ammount` fields (`children.reduce((sum, c) => sum + c.ammount, 0)`). -/
def totalAmmount (rows : List (Nat × Txn)) : Int :=
  rows.foldl (fun s p => s + p.2.ammount) 0

/-- Signed balance effect of an amount under a category-type string: the
if/else chain repeated at every balance-update site of the routes
(`+a` for income/debt, `-a` for expense/loan, no effect otherwise). -/
def signedEffect (t : String) (a : Int) : Int :=
  if t = "income" ∨ t = "debt" then a
  else if t = "expense" ∨ t = "loan" then -a
  else 0

/-- Signed balance effect of a stored transaction row, resolving its
category in the store; a dangling category contributes nothing, exactly as
the routes' `if (childCategory)` / `if (transaction.categories && ...)`
guards do. -/
def rowEffect (st : St) (t : Txn) : Int :=
  match findById st.categories t.category_id with
  | some c => signedEffect c.type t.ammount
  | none => 0

/-- Body accepted by `POST /api/transactions` after Zod validation
(`transactionSchema`), ids already in resolved form. -/
structure CreateReq where
  name : String
  description : String
  ammount : Int
  category_id : Nat
  wallet_id : Nat
  parent_id : Option Nat
  remaining_ammount : Option Int
deriving Repr, DecidableEq

/-- POST /api/transactions (src/app/api/transactions/route.ts).
`newId` is the `_id` Mongo assigns to the inserted document.  The Zod
positivity check on `ammount` is the leading guard; wallet and category
are then loaded and ownership-checked; the `DB.transaction` block inserts
the row (with `remaining_ammount = ammount` for debt/loan categories and
`validatedData.remaining_ammount || 0` otherwise) and writes the adjusted
wallet balance. -/
def createTransaction (st : St) (user_id : Nat) (req : CreateReq) (newId : Nat) :
    Except Err St :=
  if ¬ 0 < req.ammount then .error ⟨"Amount must be a positive number", 400⟩
  else
    match findById st.wallets req.wallet_id with
    | none => .error ⟨"Wallet not found", 404⟩
    | some wallet =>
      if wallet.user_id ≠ user_id then .error ⟨"Unauthorized access to wallet", 403⟩
      else
        match findById st.categories req.category_id with
        | none => .error ⟨"Category not found", 404⟩
        | some category =>
          if category.user_id ≠ user_id then
            .error ⟨"Unauthorized access to category", 403⟩
          else
            let remaining : Int :=
              if category.type = "debt" ∨ category.type = "loan" then req.ammount
              else match req.remaining_ammount with
                   | some r => r
                   | none => 0
            let txn : Txn :=
              { name := req.name, description := req.description,
                ammount := req.ammount, category_id := req.category_id,
                wallet_id := req.wallet_id, parent_id := req.parent_id,
                remaining_ammount := remaining }
            let newBalance : Int :=
              if category.type = "income" ∨ category.type = "debt" then
                wallet.balance + req.ammount
              else if category.type = "expense" ∨ category.type = "loan" then
                wallet.balance - req.ammount
              else wallet.balance
            .ok { st with
                  transactions := st.transactions ++ [(newId, txn)],
                  wallets := updateById st.wallets req.wallet_id
                    (fun w => { w with balance := newBalance }) }

/-- Body accepted by `POST /api/debts/repayments` and the debt-collection
route after Zod validation. -/
structure RepayReq where
  description : String
  ammount : Int
  wallet_id : Nat
  parent_id : Nat
deriving Repr, DecidableEq

/-- First category of the user with the given fixed name
(`Category.where('user_id', uid).where('name', nm).first()`), returned
together with its id. -/
def findCategoryByName (rows : List (Nat × Category)) (uid : Nat) (nm : String) :
    Option (Nat × Category) :=
  rows.find? (fun p => decide (p.2.user_id = uid ∧ p.2.name = nm))

/-- Common body of the repayment and debt-collection POST routes, which are
textually identical up to the fixed category name, the generated child name
prefix, and the sign applied to the wallet balance (`-` for repayment, `+`
for collection).  No ownership check is made on the parent transaction or
on the wallet. -/
def repayLikePOST (catName prefixName : String) (inflow : Bool)
    (st : St) (user_id : Nat) (req : RepayReq) (newId : Nat) : Except Err St :=
  if ¬ 0 < req.ammount then .error ⟨"Amount must be a positive number", 400⟩
  else
    match findCategoryByName st.categories user_id catName with
    | none => .error ⟨"Category not Found", 404⟩
    | some (catId, _) =>
      match findById st.transactions req.parent_id with
      | none => .error ⟨"Debt not Found", 404⟩
      | some debt =>
        if req.ammount > debt.remaining_ammount ∨ debt.remaining_ammount = 0 then
          .error ⟨"Debt remaining ammount is exceeded", 400⟩
        else
          match findById st.wallets req.wallet_id with
          | none => .error ⟨"Wallet not Found", 404⟩
          | some wallet =>
            let child : Txn :=
              { name := prefixName ++ debt.name, description := req.description,
                ammount := req.ammount, category_id := catId,
                wallet_id := req.wallet_id, parent_id := some req.parent_id,
                remaining_ammount := 0 }
            .ok { st with
                  transactions :=
                    updateById (st.transactions ++ [(newId, child)]) req.parent_id
                      (fun t => { t with
                        remaining_ammount := debt.remaining_ammount - req.ammount }),
                  wallets := updateById st.wallets req.wallet_id
                    (fun w => { w with balance :=
                      if inflow then wallet.balance + req.ammount
                      else wallet.balance - req.ammount }) }

/-- Body accepted by `PUT /api/transactions/[id]` (first implementation,
`updateTransactionSchema` with required name/ammount/date/category/wallet). -/
structure UpdateReq where
  name : String
  description : String
  ammount : Int
  category_id : Nat
  wallet_id : Nat
  parent_id : Option Nat
  remaining_ammount : Option Int
deriving Repr, DecidableEq

/-- Ownership test on a wallet row: it exists and belongs to the user
(the negation of `!w || w.user_id.toString() !== user_id`). -/
def ownedWallet (st : St) (wid uid : Nat) : Bool :=
  match findById st.wallets wid with
  | some w => decide (w.user_id = uid)
  | none => false

/-- Ownership test on a category row. -/
def ownedCategory (st : St) (cid uid : Nat) : Bool :=
  match findById st.categories cid with
  | some c => decide (c.user_id = uid)
  | none => false

/-- Row written by the first PUT implementation's final
`Transaction.where('_id', id).update(transactionData)`: every field is
taken from the request, `remaining_ammount` from the recomputation. -/
def putRow (req : UpdateReq) (remaining : Int) : Txn :=
  { name := req.name, description := req.description, ammount := req.ammount,
    category_id := req.category_id, wallet_id := req.wallet_id,
    parent_id := req.parent_id, remaining_ammount := remaining }

/-- Parent remaining-amount recomputation of the first PUT implementation:
when the (request's or stored) parent id points at an existing transaction
whose category resolves to debt/loan, the parent's `remaining_ammount`
becomes `parent.ammount - Σ children` (the edited child counted with its
new amount), rejected with 400 when negative; in every other case the
transactions collection is left alone. -/
def putParentStep (st : St) (id : Nat) (txn : Txn) (req : UpdateReq) :
    Except Err (List (Nat × Txn)) :=
  match (match req.parent_id with | some p => some p | none => txn.parent_id) with
  | none => .ok st.transactions
  | some pid =>
    match findById st.transactions pid with
    | none => .ok st.transactions
    | some parent =>
      match findById st.categories parent.category_id with
      | none => .ok st.transactions
      | some pcat =>
        if pcat.type = "debt" ∨ pcat.type = "loan" then
          let totalChildPayments :=
            (childrenOf st.transactions pid).foldl
              (fun s p => s + (if p.1 = id then req.ammount else p.2.ammount)) 0
          let newParentRemainingAmount := parent.ammount - totalChildPayments
          if newParentRemainingAmount < 0 then
            .error ⟨"Total child payments would exceed parent amount. Cannot update transaction.", 400⟩
          else
            .ok (updateById st.transactions pid
              (fun t => { t with remaining_ammount := newParentRemainingAmount }))
        else .ok st.transactions

/-- The `calculatedRemainingAmount` block of the first PUT implementation:
when the new category is debt/loan the edited row's remaining amount is
recomputed as `ammount - Σ existing children` and validated (non-negative,
and matching a client-supplied `remaining_ammount` when present); the
returned value is what the session stores in the rewritten row, 0 for any
other category type (the code's `remainingAmount` variable). -/
def putOwnRemaining (st : St) (id : Nat) (req : UpdateReq)
    (newCategory : Category) : Except Err Int :=
  if newCategory.type = "debt" ∨ newCategory.type = "loan" then
    let totalPayments := totalAmmount (childrenOf st.transactions id)
    let calculatedRemainingAmount : Int := req.ammount - totalPayments
    if calculatedRemainingAmount < 0 then
      .error ⟨"Total payments exceed the amount. Remaining amount cannot be negative.", 400⟩
    else if req.remaining_ammount ≠ none ∧
        req.remaining_ammount ≠ some calculatedRemainingAmount then
      .error ⟨"Provided remaining amount does not match calculated remaining amount based on existing payments", 400⟩
    else .ok calculatedRemainingAmount
  else .ok 0

/-- The `DB.transaction` callback of the first PUT implementation
(src/app/api/transactions/[id]/route.ts, first variant): recomputes the
edited row's own remaining amount when its new category is debt/loan,
applies the net balance delta to the wallet the transaction was loaded
with (`wallet._id` — the old wallet, whatever `wallet_id` the request
carries), recomputes a debt/loan parent's remaining amount, and rewrites
the transaction row from the request. -/
def putTxnSession (st : St) (id : Nat) (txn : Txn) (wallet : Wallet)
    (req : UpdateReq) : Except Err St :=
  match findById st.categories txn.category_id,
        findById st.categories req.category_id with
  | some oldCategory, some newCategory =>
    match putOwnRemaining st id req newCategory with
    | .error e => .error e
    | .ok remainingAmount =>
      let balanceAdjustment : Int :=
        (if oldCategory.type = "income" ∨ oldCategory.type = "debt" then
          -txn.ammount
        else if oldCategory.type = "expense" ∨ oldCategory.type = "loan" then
          txn.ammount
        else 0) +
        (if newCategory.type = "income" ∨ newCategory.type = "debt" then
          req.ammount
        else if newCategory.type = "expense" ∨ newCategory.type = "loan" then
          -req.ammount
        else 0)
      let wallets' :=
        if balanceAdjustment ≠ 0 then
          updateById st.wallets txn.wallet_id
            (fun w => { w with balance := wallet.balance + balanceAdjustment })
        else st.wallets
      match putParentStep st id txn req with
      | .error e => .error e
      | .ok txns1 =>
        .ok { st with
              wallets := wallets',
              transactions := updateById txns1 id (fun _ => putRow req remainingAmount) }
  | _, _ => .error ⟨"Category not found", 404⟩

/-- PUT /api/transactions/[id], first implementation: Zod validation, load
and ownership checks (transaction via its wallet, then a destination
wallet or category only when it differs from the stored one), then the
atomic session. -/
def putTransaction (st : St) (user_id : Nat) (id : Nat) (req : UpdateReq) :
    Except Err St :=
  if ¬ 0 < req.ammount then .error ⟨"Amount must be a positive number", 400⟩
  else
    match findById st.transactions id with
    | none => .error ⟨"Transaction not found", 404⟩
    | some txn =>
      match findById st.wallets txn.wallet_id with
      | none => .error ⟨"Unauthorized access to transaction", 403⟩
      | some wallet =>
        if wallet.user_id ≠ user_id then
          .error ⟨"Unauthorized access to transaction", 403⟩
        else if req.wallet_id ≠ txn.wallet_id ∧
            ownedWallet st req.wallet_id user_id = false then
          .error ⟨"Unauthorized access to new wallet", 403⟩
        else if req.category_id ≠ txn.category_id ∧
            ownedCategory st req.category_id user_id = false then
          .error ⟨"Unauthorized access to new category", 403⟩
        else putTxnSession st id txn wallet req

/-- Body accepted by the second PUT implementation
(`updateTransactionSchema` with every field optional). -/
structure UpdateReqV2 where
  name : Option String
  description : Option String
  ammount : Option Int
  category_id : Option Nat
  wallet_id : Option Nat
  parent_id : Option Nat
  remaining_ammount : Option Int
deriving Repr, DecidableEq

/-- Row written by the second PUT implementation's
`update({...validatedData})`: only the fields present in the request are
overwritten (no remaining-amount recomputation in this variant). -/
def putRowV2 (txn : Txn) (req : UpdateReqV2) : Txn :=
  { txn with
    name := req.name.getD txn.name,
    description := req.description.getD txn.description,
    ammount := req.ammount.getD txn.ammount,
    category_id := req.category_id.getD txn.category_id,
    wallet_id := req.wallet_id.getD txn.wallet_id,
    parent_id := (match req.parent_id with | some p => some p | none => txn.parent_id),
    remaining_ammount := req.remaining_ammount.getD txn.remaining_ammount }

/-- The `DB.transaction` callback of the second PUT implementation: when
the request moves the transaction to a different wallet, the old effect is
removed from the source wallet and the new effect added to the destination
wallet, both written in the session; otherwise the net delta is applied to
the current wallet.  The inner `Wallet.find` calls cannot fail after
validation; a missing row there would surface as an unclassified 500. -/
def putTxnSessionV2 (st : St) (id : Nat) (txn : Txn) (req : UpdateReqV2) :
    Except Err St :=
  match findById st.categories txn.category_id with
  | none => .error ⟨"Category not found", 404⟩
  | some oldCategory =>
    match (match req.category_id with
           | some c => findById st.categories c
           | none => some oldCategory) with
    | none => .error ⟨"Category not found", 404⟩
    | some newCategory =>
      let oldAmount := txn.ammount
      let newAmount := req.ammount.getD oldAmount
      let balanceAdjustment : Int :=
        (if oldCategory.type = "income" ∨ oldCategory.type = "debt" then
          -oldAmount
        else if oldCategory.type = "expense" ∨ oldCategory.type = "loan" then
          oldAmount
        else 0) +
        (if newCategory.type = "income" ∨ newCategory.type = "debt" then
          newAmount
        else if newCategory.type = "expense" ∨ newCategory.type = "loan" then
          -newAmount
        else 0)
      match findById st.wallets txn.wallet_id with
      | none => .error ⟨"Internal server error", 500⟩
      | some currentWallet =>
        match req.wallet_id with
        | some w =>
          if w ≠ txn.wallet_id then
            match findById st.wallets w with
            | none => .error ⟨"Internal server error", 500⟩
            | some targetWallet =>
              let currentBalance :=
                if oldCategory.type = "income" ∨ oldCategory.type = "debt" then
                  currentWallet.balance - oldAmount
                else if oldCategory.type = "expense" ∨ oldCategory.type = "loan" then
                  currentWallet.balance + oldAmount
                else currentWallet.balance
              let targetBalance :=
                if newCategory.type = "income" ∨ newCategory.type = "debt" then
                  targetWallet.balance + newAmount
                else if newCategory.type = "expense" ∨ newCategory.type = "loan" then
                  targetWallet.balance - newAmount
                else targetWallet.balance
              let wallets1 := updateById st.wallets txn.wallet_id
                (fun x => { x with balance := currentBalance })
              let wallets2 := updateById wallets1 w
                (fun x => { x with balance := targetBalance })
              .ok { st with
                    wallets := wallets2,
                    transactions := updateById st.transactions id
                      (fun t => putRowV2 t req) }
          else
            let wallets' :=
              if balanceAdjustment ≠ 0 then
                updateById st.wallets txn.wallet_id
                  (fun x => { x with balance := currentWallet.balance + balanceAdjustment })
              else st.wallets
            .ok { st with
                  wallets := wallets',
                  transactions := updateById st.transactions id
                    (fun t => putRowV2 t req) }
        | none =>
          let wallets' :=
            if balanceAdjustment ≠ 0 then
              updateById st.wallets txn.wallet_id
                (fun x => { x with balance := currentWallet.balance + balanceAdjustment })
            else st.wallets
          .ok { st with
                wallets := wallets',
                transactions := updateById st.transactions id
                  (fun t => putRowV2 t req) }

/-- PUT /api/transactions/[id], second implementation
(`validateUpdateTransaction` helper followed by the session). -/
def putTransactionV2 (st : St) (user_id : Nat) (id : Nat) (req : UpdateReqV2) :
    Except Err St :=
  if (match req.ammount with | some a => decide (¬ 0 < a) | none => false) then
    .error ⟨"Amount must be a positive number", 400⟩
  else
    match findById st.transactions id with
    | none => .error ⟨"Transaction not found", 404⟩
    | some txn =>
      match findById st.wallets txn.wallet_id with
      | none => .error ⟨"Unauthorized access to transaction", 403⟩
      | some wallet =>
        if wallet.user_id ≠ user_id then
          .error ⟨"Unauthorized access to transaction", 403⟩
        else if (match req.wallet_id with
                 | some w => decide (w ≠ txn.wallet_id) && !(ownedWallet st w user_id)
                 | none => false) then
          .error ⟨"Unauthorized access to new wallet", 403⟩
        else if (match req.category_id with
                 | some c => decide (c ≠ txn.category_id) && !(ownedCategory st c user_id)
                 | none => false) then
          .error ⟨"Unauthorized access to new category", 403⟩
        else putTxnSessionV2 st id txn req

/-- Reversal of one transaction's balance effect, as the DELETE session
performs it both in the child loop and for the main row: resolve the
row's category and undo the income/debt (+) or expense/loan (-) effect on
the running balance; a dangling category changes nothing. -/
def reverseBalanceEffect (st : St) (t : Txn) (b : Int) : Int :=
  match findById st.categories t.category_id with
  | some c =>
    if c.type = "income" ∨ c.type = "debt" then b - t.ammount
    else if c.type = "expense" ∨ c.type = "loan" then b + t.ammount
    else b
  | none => b

/-- The `DB.transaction` callback of DELETE /api/transactions/[id]: every
row with `parent_id = id` is deleted and its balance effect reversed on
the in-memory `wallet` object — the wallet the PARENT was loaded with,
regardless of the child's own `wallet_id` — then the main transaction's
effect is reversed, the accumulated balance written once, and the main
row deleted. -/
def deleteTxnSession (st : St) (id : Nat) (txn : Txn) (wallet : Wallet) : St :=
  let children := childrenOf st.transactions id
  let balAfterChildren := children.foldl
    (fun b p => reverseBalanceEffect st p.2 b) wallet.balance
  let finalBalance := reverseBalanceEffect st txn balAfterChildren
  { st with
    wallets := updateById st.wallets txn.wallet_id
      (fun w => { w with balance := finalBalance }),
    transactions :=
      (st.transactions.filter (fun p => decide (p.2.parent_id ≠ some id))).filter
        (fun p => decide (p.1 ≠ id)) }

/-- DELETE /api/transactions/[id]: load the transaction, ownership check
via its wallet, then the atomic session above. -/
def deleteTransaction (st : St) (user_id : Nat) (id : Nat) : Except Err St :=
  match findById st.transactions id with
  | none => .error ⟨"Transaction not found", 404⟩
  | some txn =>
    match findById st.wallets txn.wallet_id with
    | none => .error ⟨"Unauthorized access to transaction", 403⟩
    | some wallet =>
      if wallet.user_id ≠ user_id then
        .error ⟨"Unauthorized access to transaction", 403⟩
      else .ok (deleteTxnSession st id txn wallet)

/-- Variant of POST /api/transactions with the low-balance notification
step (the unnamed route file importing OpenAI).  The whole notification
step — model call, `JSON.parse` of its output, `Notification.create`, and
the Expo push `fetch` — happens INSIDE the `DB.transaction` callback with
no try/catch; its outcome is abstracted as the `notif` argument.  When the
updated balance is at or below the wallet threshold and `notif` is an
error, the exception propagates out of the callback and the session is
rolled back, so the route returns the error and no insert or balance
write survives.  The notification document itself is not tracked here. -/
def createTransactionNotif (st : St) (user_id : Nat) (req : CreateReq)
    (newId : Nat) (notif : Except Err Unit) : Except Err St :=
  if ¬ 0 < req.ammount then .error ⟨"Amount must be a positive number", 400⟩
  else
    match findById st.wallets req.wallet_id with
    | none => .error ⟨"Wallet not found", 404⟩
    | some wallet =>
      if wallet.user_id ≠ user_id then .error ⟨"Unauthorized access to wallet", 403⟩
      else
        match findById st.categories req.category_id with
        | none => .error ⟨"Category not found", 404⟩
        | some category =>
          if category.user_id ≠ user_id then
            .error ⟨"Unauthorized access to category", 403⟩
          else
            let remaining : Int :=
              if category.type = "debt" ∨ category.type = "loan" then req.ammount
              else match req.remaining_ammount with
                   | some r => r
                   | none => 0
            let txn : Txn :=
              { name := req.name, description := req.description,
                ammount := req.ammount, category_id := req.category_id,
                wallet_id := req.wallet_id, parent_id := req.parent_id,
                remaining_ammount := remaining }
            let newBalance : Int :=
              if category.type = "income" ∨ category.type = "debt" then
                wallet.balance + req.ammount
              else if category.type = "expense" ∨ category.type = "loan" then
                wallet.balance - req.ammount
              else wallet.balance
            let st' : St :=
              { st with
                transactions := st.transactions ++ [(newId, txn)],
                wallets := updateById st.wallets req.wallet_id
                  (fun w => { w with balance := newBalance }) }
            if newBalance ≤ wallet.threshold then
              match notif with
              | .error e => .error e
              | .ok _ => .ok st'
            else .ok st'

/-- POST /api/debts/repayments: fixed category "Repayment", outflow. -/
def repaymentPOST (st : St) (user_id : Nat) (req : RepayReq) (newId : Nat) :
    Except Err St :=
  repayLikePOST "Repayment" "Repayment for " false st user_id req newId

/-- Debt-collection POST route: fixed category "Debt Collection", inflow. -/
def collectionPOST (st : St) (user_id : Nat) (req : RepayReq) (newId : Nat) :
    Except Err St :=
  repayLikePOST "Debt Collection" "Debt collection for " true st user_id req newId

/-- Modelled from the spec: the Category Type Resolver's sign convention
`signFor(categoryType) → {+1 for income/debt, -1 for expense/loan}`
(spec section 4.1), used to state the claims' `delta` formula; it is only
specified on the four recognized types. -/
def specSign (t : String) : Int :=
  if t = "income" ∨ t = "debt" then 1
  else if t = "expense" ∨ t = "loan" then -1
  else 0

/-- Observable store after a request: the route's result on commit, the
untouched prior store when the atomic unit aborted. -/
def commitOr (st : St) (r : Except Err St) : St :=
  match r with
  | .ok s => s
  | .error _ => st

theorem findById_append {α : Type} (xs ys : List (Nat × α)) (id : Nat) :
    findById (xs ++ ys) id =
      (findById xs id).rec (findById ys id) (fun v => some v) := by
  induction xs with
  | nil => simp [findById]
  | cons p rest ih =>
    obtain ⟨k, v⟩ := p
    by_cases hk : k = id <;> simp [findById, hk, ih]

theorem findById_append_of_none {α : Type} {xs : List (Nat × α)} {id : Nat}
    (ys : List (Nat × α)) (h : findById xs id = none) :
    findById (xs ++ ys) id = findById ys id := by
  rw [findById_append, h]

theorem findById_append_of_some {α : Type} {xs : List (Nat × α)} {id : Nat}
    {v : α} (ys : List (Nat × α)) (h : findById xs id = some v) :
    findById (xs ++ ys) id = some v := by
  rw [findById_append, h]

theorem findById_updateById_self {α : Type} (rows : List (Nat × α)) (id : Nat)
    (f : α → α) :
    findById (updateById rows id f) id = (findById rows id).map f := by
  induction rows with
  | nil => rfl
  | cons p rest ih =>
    obtain ⟨k, v⟩ := p
    rw [updateById]
    by_cases hk : k = id
    · subst hk
      rw [if_pos rfl, findById, if_pos rfl, findById, if_pos rfl, Option.map_some']
    · rw [if_neg hk, findById, if_neg hk, findById, if_neg hk, ih]

theorem findById_updateById_ne {α : Type} {id id' : Nat} (rows : List (Nat × α))
    (f : α → α) (h : id' ≠ id) :
    findById (updateById rows id f) id' = findById rows id' := by
  induction rows with
  | nil => rfl
  | cons p rest ih =>
    obtain ⟨k, v⟩ := p
    rw [updateById]
    by_cases hk : k = id
    · have hk' : ¬ k = id' := fun hh => h (hh.symm.trans hk)
      rw [if_pos hk, findById, if_neg hk', findById, if_neg hk', ih]
    · rw [if_neg hk, findById, findById]
      by_cases h2 : k = id'
      · rw [if_pos h2, if_pos h2]
      · rw [if_neg h2, if_neg h2, ih]

theorem childrenOf_append (xs ys : List (Nat × Txn)) (pid : Nat) :
    childrenOf (xs ++ ys) pid = childrenOf xs pid ++ childrenOf ys pid := by
  simp [childrenOf, List.filter_append]

theorem childrenOf_eq_nil {rows : List (Nat × Txn)} {pid : Nat}
    (h : ∀ p ∈ rows, p.2.parent_id ≠ some pid) : childrenOf rows pid = [] := by
  simp only [childrenOf, List.filter_eq_nil_iff]
  intro p hp
  simpa using h p hp

theorem foldl_add_section {α : Type} (f : α → Int) (rows : List α) (a : Int) :
    rows.foldl (fun s p => s + f p) a = a + (rows.map f).sum := by
  induction rows generalizing a with
  | nil => simp
  | cons x rest ih => simp [ih]; ring

theorem totalAmmount_eq (rows : List (Nat × Txn)) :
    totalAmmount rows = (rows.map (fun p => p.2.ammount)).sum := by
  simpa using foldl_add_section (fun p => p.2.ammount) rows 0

/-- C1: a repayment or debt-collection create request whose amount exceeds
the parent's `remaining_ammount`, or whose parent has `remaining_ammount`
0, fails with the 400 `CustomError` thrown before the `DB.transaction`
block — so no transaction row, no parent remaining amount and no wallet
balance is written (an `.error` result carries no successor store) —
while any other such request creates the zero-remaining child row.
Hypotheses: the request passed Zod validation, the user owns the
fixed-name category, the parent and wallet exist, and the inserted id is
fresh. -/
theorem repayment_guard_rejects_overpayment
    (st : St) (uid : Nat) (req : RepayReq) (nid : Nat)
    (debt : Txn) (cid : Nat) (cat : Category) (w : Wallet)
    (hA : 0 < req.ammount)
    (hDebt : findById st.transactions req.parent_id = some debt)
    (hW : findById st.wallets req.wallet_id = some w)
    (hFresh : findById st.transactions nid = none)
    (hNe : nid ≠ req.parent_id) :
    (findCategoryByName st.categories uid "Repayment" = some (cid, cat) →
      (req.ammount > debt.remaining_ammount ∨ debt.remaining_ammount = 0 →
        repaymentPOST st uid req nid =
          .error ⟨"Debt remaining ammount is exceeded", 400⟩) ∧
      (¬ (req.ammount > debt.remaining_ammount ∨ debt.remaining_ammount = 0) →
        ∃ st', repaymentPOST st uid req nid = .ok st' ∧
          findById st'.transactions nid = some
            { name := "Repayment for " ++ debt.name,
              description := req.description, ammount := req.ammount,
              category_id := cid, wallet_id := req.wallet_id,
              parent_id := some req.parent_id, remaining_ammount := 0 })) ∧
    (findCategoryByName st.categories uid "Debt Collection" = some (cid, cat) →
      (req.ammount > debt.remaining_ammount ∨ debt.remaining_ammount = 0 →
        collectionPOST st uid req nid =
          .error ⟨"Debt remaining ammount is exceeded", 400⟩) ∧
      (¬ (req.ammount > debt.remaining_ammount ∨ debt.remaining_ammount = 0) →
        ∃ st', collectionPOST st uid req nid = .ok st' ∧
          findById st'.transactions nid = some
            { name := "Debt collection for " ++ debt.name,
              description := req.description, ammount := req.ammount,
              category_id := cid, wallet_id := req.wallet_id,
              parent_id := some req.parent_id, remaining_ammount := 0 })) := by
  constructor
  · intro hCat
    constructor
    · intro hguard
      simp only [repaymentPOST, repayLikePOST, hCat, hDebt, hW,
        if_neg (not_not_intro hA), if_pos hguard]
    · intro hguard
      refine ⟨{ st with
          transactions := updateById
            (st.transactions ++ [(nid,
              { name := "Repayment for " ++ debt.name,
                description := req.description, ammount := req.ammount,
                category_id := cid, wallet_id := req.wallet_id,
                parent_id := some req.parent_id, remaining_ammount := 0 })])
            req.parent_id
            (fun t => { t with remaining_ammount :=
              debt.remaining_ammount - req.ammount }),
          wallets := updateById st.wallets req.wallet_id
            (fun x => { x with balance := w.balance - req.ammount }) }, ?_, ?_⟩
      · simp only [repaymentPOST, repayLikePOST, hCat, hDebt, hW,
          if_neg (not_not_intro hA), if_neg hguard]
        rfl
      · rw [findById_updateById_ne _ _ hNe, findById_append_of_none _ hFresh,
          findById, if_pos rfl]
  · intro hCat
    constructor
    · intro hguard
      simp only [collectionPOST, repayLikePOST, hCat, hDebt, hW,
        if_neg (not_not_intro hA), if_pos hguard]
    · intro hguard
      refine ⟨{ st with
          transactions := updateById
            (st.transactions ++ [(nid,
              { name := "Debt collection for " ++ debt.name,
                description := req.description, ammount := req.ammount,
                category_id := cid, wallet_id := req.wallet_id,
                parent_id := some req.parent_id, remaining_ammount := 0 })])
            req.parent_id
            (fun t => { t with remaining_ammount :=
              debt.remaining_ammount - req.ammount }),
          wallets := updateById st.wallets req.wallet_id
            (fun x => { x with balance := w.balance + req.ammount }) }, ?_, ?_⟩
      · simp only [collectionPOST, repayLikePOST, hCat, hDebt, hW,
          if_neg (not_not_intro hA), if_neg hguard]
        rfl
      · rw [findById_updateById_ne _ _ hNe, findById_append_of_none _ hFresh,
          findById, if_pos rfl]

/-- Store for the C1 witness: user 1 owns the fixed-name categories and a
wallet; transaction 100 is a debt with `remaining_ammount` 300. -/
def c1St : St :=
  { wallets := [(1, ⟨1, "Cash", 100, 0⟩)],
    categories := [(10, ⟨1, "Repayment", "expense"⟩),
                   (11, ⟨1, "Debt Collection", "income"⟩),
                   (12, ⟨1, "Debts", "debt"⟩)],
    transactions := [(100, ⟨"Borrowed", "", 500, 12, 1, none, 300⟩)] }

/-- Witness for C1: a repayment of 400 against a parent with remaining 300
is rejected with the 400 error. -/
theorem repayment_guard_rejects_overpayment_witness :
    repaymentPOST c1St 1 ⟨"", 400, 1, 100⟩ 101 =
      .error ⟨"Debt remaining ammount is exceeded", 400⟩ :=
  ((repayment_guard_rejects_overpayment c1St 1 ⟨"", 400, 1, 100⟩ 101
    ⟨"Borrowed", "", 500, 12, 1, none, 300⟩ 10 ⟨1, "Repayment", "expense"⟩
    ⟨1, "Cash", 100, 0⟩ (by decide) rfl rfl rfl (by decide)).1 rfl).1
    (Or.inl (by decide))

/-- C5: an accepted repayment (resp. debt collection) of amount `a`
creates a child with `remaining_ammount` 0, decrements the parent's
`remaining_ammount` by exactly `a`, and moves the wallet balance with the
sign opposite to the parent's category convention: a repayment decreases
the balance by `a`, a debt collection increases it by `a`. -/
theorem repayment_effects
    (st : St) (uid : Nat) (req : RepayReq) (nid : Nat)
    (debt : Txn) (cid : Nat) (cat : Category) (w : Wallet)
    (hA : 0 < req.ammount)
    (hDebt : findById st.transactions req.parent_id = some debt)
    (hLe : req.ammount ≤ debt.remaining_ammount)
    (hW : findById st.wallets req.wallet_id = some w)
    (hFresh : findById st.transactions nid = none)
    (hNe : nid ≠ req.parent_id) :
    (findCategoryByName st.categories uid "Repayment" = some (cid, cat) →
      ∃ st', repaymentPOST st uid req nid = .ok st' ∧
        (findById st'.transactions nid).map Txn.remaining_ammount = some 0 ∧
        (findById st'.transactions req.parent_id).map Txn.remaining_ammount =
          some (debt.remaining_ammount - req.ammount) ∧
        (findById st'.wallets req.wallet_id).map Wallet.balance =
          some (w.balance - req.ammount)) ∧
    (findCategoryByName st.categories uid "Debt Collection" = some (cid, cat) →
      ∃ st', collectionPOST st uid req nid = .ok st' ∧
        (findById st'.transactions nid).map Txn.remaining_ammount = some 0 ∧
        (findById st'.transactions req.parent_id).map Txn.remaining_ammount =
          some (debt.remaining_ammount - req.ammount) ∧
        (findById st'.wallets req.wallet_id).map Wallet.balance =
          some (w.balance + req.ammount)) := by
  have hguard : ¬ (req.ammount > debt.remaining_ammount ∨
      debt.remaining_ammount = 0) := by
    intro h
    rcases h with h | h <;> omega
  constructor
  · intro hCat
    refine ⟨{ st with
        transactions := updateById
          (st.transactions ++ [(nid,
            { name := "Repayment for " ++ debt.name,
              description := req.description, ammount := req.ammount,
              category_id := cid, wallet_id := req.wallet_id,
              parent_id := some req.parent_id, remaining_ammount := 0 })])
          req.parent_id
          (fun t => { t with remaining_ammount :=
            debt.remaining_ammount - req.ammount }),
        wallets := updateById st.wallets req.wallet_id
          (fun x => { x with balance := w.balance - req.ammount }) }, ?_, ?_, ?_, ?_⟩
    · simp only [repaymentPOST, repayLikePOST, hCat, hDebt, hW,
        if_neg (not_not_intro hA), if_neg hguard]
      rfl
    · rw [findById_updateById_ne _ _ hNe, findById_append_of_none _ hFresh,
        findById, if_pos rfl]
      rfl
    · rw [findById_updateById_self, findById_append_of_some _ hDebt]
      rfl
    · rw [findById_updateById_self, hW]
      rfl
  · intro hCat
    refine ⟨{ st with
        transactions := updateById
          (st.transactions ++ [(nid,
            { name := "Debt collection for " ++ debt.name,
              description := req.description, ammount := req.ammount,
              category_id := cid, wallet_id := req.wallet_id,
              parent_id := some req.parent_id, remaining_ammount := 0 })])
          req.parent_id
          (fun t => { t with remaining_ammount :=
            debt.remaining_ammount - req.ammount }),
        wallets := updateById st.wallets req.wallet_id
          (fun x => { x with balance := w.balance + req.ammount }) }, ?_, ?_, ?_, ?_⟩
    · simp only [collectionPOST, repayLikePOST, hCat, hDebt, hW,
        if_neg (not_not_intro hA), if_neg hguard]
      rfl
    · rw [findById_updateById_ne _ _ hNe, findById_append_of_none _ hFresh,
        findById, if_pos rfl]
      rfl
    · rw [findById_updateById_self, findById_append_of_some _ hDebt]
      rfl
    · rw [findById_updateById_self, hW]
      rfl

/-- Witness for C5: a repayment of 200 against the debt with remaining 300
in `c1St` succeeds: the child's remaining is 0, the parent's remaining
drops to 100, and the wallet balance drops from 100 to -100. -/
theorem repayment_effects_witness :
    ∃ st', repaymentPOST c1St 1 ⟨"", 200, 1, 100⟩ 101 = .ok st' ∧
      (findById st'.transactions 101).map Txn.remaining_ammount = some 0 ∧
      (findById st'.transactions 100).map Txn.remaining_ammount = some 100 ∧
      (findById st'.wallets 1).map Wallet.balance = some (-100) :=
  (repayment_effects c1St 1 ⟨"", 200, 1, 100⟩ 101
    ⟨"Borrowed", "", 500, 12, 1, none, 300⟩ 10 ⟨1, "Repayment", "expense"⟩
    ⟨1, "Cash", 100, 0⟩ (by decide) rfl (by decide) rfl rfl (by decide)).1 rfl

/-- Store for the C10 witness: the requesting user 1 owns the fixed-name
categories, but wallet 2 belongs to user 2 and the parent debt transaction
77 also lives in user 2's wallet. -/
def c10St : St :=
  { wallets := [(2, ⟨2, "Victim wallet", 1000, 0⟩)],
    categories := [(10, ⟨1, "Repayment", "expense"⟩),
                   (11, ⟨1, "Debt Collection", "income"⟩)],
    transactions := [(77, ⟨"Someone else's debt", "", 500, 99, 2, none, 500⟩)] }

/-- C10: the repayment and debt-collection routes never check that the
parent transaction or the target wallet belongs to the requesting user:
whenever the requester owns the fixed-name category and names any
existing parent with sufficient remaining amount and any existing wallet
— the wallet's `user_id` is universally quantified here, so it may belong
to a different user — the child is created (`.ok`, never a 403 Forbidden)
and that wallet's balance is changed by the request amount. -/
theorem repayment_skips_ownership_checks
    (st : St) (uid : Nat) (req : RepayReq) (nid : Nat)
    (debt : Txn) (cid : Nat) (cat : Category) (w : Wallet)
    (hA : 0 < req.ammount)
    (hDebt : findById st.transactions req.parent_id = some debt)
    (hLe : req.ammount ≤ debt.remaining_ammount)
    (hW : findById st.wallets req.wallet_id = some w)
    (hFresh : findById st.transactions nid = none)
    (hNe : nid ≠ req.parent_id) :
    (findCategoryByName st.categories uid "Repayment" = some (cid, cat) →
      ∃ st', repaymentPOST st uid req nid = .ok st' ∧
        (findById st'.transactions nid).map Txn.wallet_id = some req.wallet_id ∧
        (findById st'.wallets req.wallet_id).map Wallet.balance =
          some (w.balance - req.ammount)) ∧
    (findCategoryByName st.categories uid "Debt Collection" = some (cid, cat) →
      ∃ st', collectionPOST st uid req nid = .ok st' ∧
        (findById st'.transactions nid).map Txn.wallet_id = some req.wallet_id ∧
        (findById st'.wallets req.wallet_id).map Wallet.balance =
          some (w.balance + req.ammount)) := by
  have hguard : ¬ (req.ammount > debt.remaining_ammount ∨
      debt.remaining_ammount = 0) := by
    intro h
    rcases h with h | h <;> omega
  constructor
  · intro hCat
    refine ⟨{ st with
        transactions := updateById
          (st.transactions ++ [(nid,
            { name := "Repayment for " ++ debt.name,
              description := req.description, ammount := req.ammount,
              category_id := cid, wallet_id := req.wallet_id,
              parent_id := some req.parent_id, remaining_ammount := 0 })])
          req.parent_id
          (fun t => { t with remaining_ammount :=
            debt.remaining_ammount - req.ammount }),
        wallets := updateById st.wallets req.wallet_id
          (fun x => { x with balance := w.balance - req.ammount }) }, ?_, ?_, ?_⟩
    · simp only [repaymentPOST, repayLikePOST, hCat, hDebt, hW,
        if_neg (not_not_intro hA), if_neg hguard]
      rfl
    · rw [findById_updateById_ne _ _ hNe, findById_append_of_none _ hFresh,
        findById, if_pos rfl]
      rfl
    · rw [findById_updateById_self, hW]
      rfl
  · intro hCat
    refine ⟨{ st with
        transactions := updateById
          (st.transactions ++ [(nid,
            { name := "Debt collection for " ++ debt.name,
              description := req.description, ammount := req.ammount,
              category_id := cid, wallet_id := req.wallet_id,
              parent_id := some req.parent_id, remaining_ammount := 0 })])
          req.parent_id
          (fun t => { t with remaining_ammount :=
            debt.remaining_ammount - req.ammount }),
        wallets := updateById st.wallets req.wallet_id
          (fun x => { x with balance := w.balance + req.ammount }) }, ?_, ?_, ?_⟩
    · simp only [collectionPOST, repayLikePOST, hCat, hDebt, hW,
        if_neg (not_not_intro hA), if_neg hguard]
      rfl
    · rw [findById_updateById_ne _ _ hNe, findById_append_of_none _ hFresh,
        findById, if_pos rfl]
      rfl
    · rw [findById_updateById_self, hW]
      rfl

/-- Witness for C10: user 1 repays 100 of user 2's debt transaction 77
into user 2's wallet 2; the route succeeds and drains 100 from the
foreign wallet — no Forbidden error. -/
theorem repayment_skips_ownership_checks_witness :
    ∃ st', repaymentPOST c10St 1 ⟨"", 100, 2, 77⟩ 50 = .ok st' ∧
      (findById st'.transactions 50).map Txn.wallet_id = some 2 ∧
      (findById st'.wallets 2).map Wallet.balance = some 900 :=
  (repayment_skips_ownership_checks c10St 1 ⟨"", 100, 2, 77⟩ 50
    ⟨"Someone else's debt", "", 500, 99, 2, none, 500⟩ 10
    ⟨1, "Repayment", "expense"⟩ ⟨2, "Victim wallet", 1000, 0⟩
    (by decide) rfl (by decide) rfl rfl (by decide)).1 rfl

/-- Store for the C4 counterexample and witness: user 1 owns wallet 1
(balance 0) and an income and an expense category. -/
def c4St : St :=
  { wallets := [(1, ⟨1, "Cash", 0, 0⟩)],
    categories := [(20, ⟨1, "Salary", "income"⟩), (21, ⟨1, "Food", "expense"⟩)],
    transactions := [] }

/-- Counterexample for C4: the claim says a create against a non-debt/loan
category stores `remaining_ammount` 0, but the route stores
`validatedData.remaining_ammount || 0`, so a create of an income
transaction that supplies `remaining_ammount = 5` completes with the
stored row carrying remaining 5, not 0. -/
theorem create_nonzero_remaining_counterexample :
    (createTransaction c4St 1 ⟨"Bonus", "", 100, 20, 1, none, some 5⟩ 200).toOption.map
        (fun s => (findById s.transactions 200).map Txn.remaining_ammount) =
      some (some 5) ∧
    (createTransaction c4St 1 ⟨"Bonus", "", 100, 20, 1, none, some 5⟩ 200).toOption.map
        (fun s => (findById s.transactions 200).map Txn.remaining_ammount) ≠
      some (some 0) := by
  constructor
  · rfl
  · decide

/-- Characterization of a passing create: the stored remaining amount,
the written wallet balance, and the inserted row's amount, shared by the
claims about the create route. -/
theorem create_effects_core
    (st : St) (uid : Nat) (req : CreateReq) (nid : Nat)
    (w : Wallet) (cat : Category)
    (hA : 0 < req.ammount)
    (hW : findById st.wallets req.wallet_id = some w)
    (hWo : w.user_id = uid)
    (hC : findById st.categories req.category_id = some cat)
    (hCo : cat.user_id = uid)
    (hFresh : findById st.transactions nid = none) :
    ∃ st', createTransaction st uid req nid = .ok st' ∧
      (findById st'.transactions nid).map Txn.remaining_ammount =
        some (if cat.type = "debt" ∨ cat.type = "loan" then req.ammount
              else req.remaining_ammount.getD 0) ∧
      (findById st'.wallets req.wallet_id).map Wallet.balance =
        some (if cat.type = "income" ∨ cat.type = "debt" then
                w.balance + req.ammount
              else if cat.type = "expense" ∨ cat.type = "loan" then
                w.balance - req.ammount
              else w.balance) ∧
      (findById st'.transactions nid).map Txn.ammount = some req.ammount := by
  refine ⟨{ st with
      transactions := st.transactions ++ [(nid,
        { name := req.name, description := req.description,
          ammount := req.ammount, category_id := req.category_id,
          wallet_id := req.wallet_id, parent_id := req.parent_id,
          remaining_ammount :=
            if cat.type = "debt" ∨ cat.type = "loan" then req.ammount
            else match req.remaining_ammount with
                 | some r => r
                 | none => 0 })],
      wallets := updateById st.wallets req.wallet_id
        (fun x => { x with balance :=
          if cat.type = "income" ∨ cat.type = "debt" then
            w.balance + req.ammount
          else if cat.type = "expense" ∨ cat.type = "loan" then
            w.balance - req.ammount
          else w.balance }) }, ?_, ?_, ?_, ?_⟩
  · simp only [createTransaction, hW, hC, if_neg (not_not_intro hA),
      if_neg (not_not_intro hWo), if_neg (not_not_intro hCo)]
  · rw [findById_append_of_none _ hFresh, findById, if_pos rfl]
    by_cases hP : cat.type = "debt" ∨ cat.type = "loan"
    · simp [hP]
    · simp only [Option.map_some', if_neg hP]
      cases req.remaining_ammount <;> rfl
  · rw [findById_updateById_self, hW]
    rfl
  · rw [findById_append_of_none _ hFresh, findById, if_pos rfl]
    rfl

/-- C4 amended: Create stores `remaining_ammount = ammount` when the
category type is debt or loan and otherwise stores the client-supplied
`remaining_ammount` value defaulting to 0 (so 0 whenever the request
omits the optional field), and changes the wallet balance by `+ammount`
for income/debt, `-ammount` for expense/loan, and not at all for any
other type. -/
theorem create_remaining_and_balance
    (st : St) (uid : Nat) (req : CreateReq) (nid : Nat)
    (w : Wallet) (cat : Category)
    (hA : 0 < req.ammount)
    (hW : findById st.wallets req.wallet_id = some w)
    (hWo : w.user_id = uid)
    (hC : findById st.categories req.category_id = some cat)
    (hCo : cat.user_id = uid)
    (hFresh : findById st.transactions nid = none) :
    ∃ st', createTransaction st uid req nid = .ok st' ∧
      (findById st'.transactions nid).map Txn.remaining_ammount =
        some (if cat.type = "debt" ∨ cat.type = "loan" then req.ammount
              else req.remaining_ammount.getD 0) ∧
      (findById st'.wallets req.wallet_id).map Wallet.balance =
        some (if cat.type = "income" ∨ cat.type = "debt" then
                w.balance + req.ammount
              else if cat.type = "expense" ∨ cat.type = "loan" then
                w.balance - req.ammount
              else w.balance) := by
  obtain ⟨st', h1, h2, h3, _⟩ :=
    create_effects_core st uid req nid w cat hA hW hWo hC hCo hFresh
  exact ⟨st', h1, h2, h3⟩

/-- Witness for C4 (amended): creating an expense of 100 against wallet 1
with balance 0 leaves the balance at -100, and the stored remaining is the
omitted-field default 0. -/
theorem create_remaining_and_balance_witness :
    ∃ st', createTransaction c4St 1 ⟨"Groceries", "", 100, 21, 1, none, none⟩ 200 =
        .ok st' ∧
      (findById st'.transactions 200).map Txn.remaining_ammount = some 0 ∧
      (findById st'.wallets 1).map Wallet.balance = some (-100) :=
  create_remaining_and_balance c4St 1 ⟨"Groceries", "", 100, 21, 1, none, none⟩ 200
    ⟨1, "Cash", 0, 0⟩ ⟨1, "Food", "expense"⟩ (by decide) rfl rfl rfl rfl rfl

/-- Store for the C9 counterexample and witness: category 30 has the
unrecognized type string "investment". -/
def c9St : St :=
  { wallets := [(1, ⟨1, "Cash", 250, 0⟩)],
    categories := [(30, ⟨1, "Crypto", "investment"⟩)],
    transactions := [] }

/-- Counterexample for C9: the claim says a create whose category type is
outside income/expense/debt/loan fails (`InvalidCategoryType`); the route
has no such error — evaluating the create of a 100-unit transaction under
type "investment" yields a successful result (`toOption` is `some`) with
the row inserted (its ammount readable as 100) and the wallet balance left
at 250, exactly the completion the claim says cannot happen. -/
theorem create_unknown_type_counterexample :
    (createTransaction c9St 1 ⟨"Coins", "", 100, 30, 1, none, none⟩ 7).toOption.map
        (fun s => ((findById s.wallets 1).map Wallet.balance,
                   (findById s.transactions 7).map Txn.ammount)) =
      some (some 250, some 100) := by
  rfl

/-- C9 amended: a create whose category type is outside the four
recognized values completes successfully — the transaction row is
inserted and the wallet balance is left unadjusted; no
`InvalidCategoryType` error exists in the route (unrecognized types are
only prevented upstream, by the category schema's enum validation). -/
theorem create_unknown_type_completes
    (st : St) (uid : Nat) (req : CreateReq) (nid : Nat)
    (w : Wallet) (cat : Category)
    (hA : 0 < req.ammount)
    (hW : findById st.wallets req.wallet_id = some w)
    (hWo : w.user_id = uid)
    (hC : findById st.categories req.category_id = some cat)
    (hCo : cat.user_id = uid)
    (hFresh : findById st.transactions nid = none)
    (hT1 : ¬ (cat.type = "income" ∨ cat.type = "debt"))
    (hT2 : ¬ (cat.type = "expense" ∨ cat.type = "loan")) :
    ∃ st', createTransaction st uid req nid = .ok st' ∧
      (findById st'.wallets req.wallet_id).map Wallet.balance = some w.balance ∧
      (findById st'.transactions nid).map Txn.ammount = some req.ammount := by
  obtain ⟨st', hok, hrem, hbal, hrow⟩ :=
    create_effects_core st uid req nid w cat hA hW hWo hC hCo hFresh
  refine ⟨st', hok, ?_, hrow⟩
  rw [hbal, if_neg hT1, if_neg hT2]

/-- Witness for C9 (amended): the concrete "investment"-typed create of
`create_unknown_type_counterexample` obtained through the general
theorem. -/
theorem create_unknown_type_completes_witness :
    ∃ st', createTransaction c9St 1 ⟨"Coins", "", 100, 30, 1, none, none⟩ 7 =
        .ok st' ∧
      (findById st'.wallets 1).map Wallet.balance = some 250 ∧
      (findById st'.transactions 7).map Txn.ammount = some 100 :=
  create_unknown_type_completes c9St 1 ⟨"Coins", "", 100, 30, 1, none, none⟩ 7
    ⟨1, "Cash", 250, 0⟩ ⟨1, "Crypto", "investment"⟩ (by decide) rfl rfl rfl rfl
    rfl (by decide) (by decide)

theorem reverse_balance_eq (t : String) (b a : Int) :
    (if t = "income" ∨ t = "debt" then b - a
     else if t = "expense" ∨ t = "loan" then b + a else b) = b - signedEffect t a := by
  unfold signedEffect
  split_ifs <;> ring

theorem apply_balance_eq (t : String) (b a : Int) :
    (if t = "income" ∨ t = "debt" then b + a
     else if t = "expense" ∨ t = "loan" then b - a else b) = b + signedEffect t a := by
  unfold signedEffect
  split_ifs <;> ring

theorem apply_chain_eq (t : String) (a : Int) :
    (if t = "income" ∨ t = "debt" then a
     else if t = "expense" ∨ t = "loan" then -a else 0) = specSign t * a := by
  unfold specSign
  split_ifs <;> ring

theorem reverse_chain_eq (t : String) (a : Int) :
    (if t = "income" ∨ t = "debt" then -a
     else if t = "expense" ∨ t = "loan" then a else 0) = -(specSign t * a) := by
  unfold specSign
  split_ifs <;> ring

/-- C2: a successful update through the first PUT implementation that
keeps the transaction's wallet changes that wallet's balance by exactly
`delta = sign(newType)*newAmount - sign(oldType)*oldAmount`, with sign +1
for income/debt and -1 for expense/loan. -/
theorem put_same_wallet_delta
    (st : St) (uid : Nat) (id : Nat) (req : UpdateReq) (st' : St)
    (txn : Txn) (w : Wallet) (oc nc : Category)
    (hTxn : findById st.transactions id = some txn)
    (hSame : req.wallet_id = txn.wallet_id)
    (hW : findById st.wallets txn.wallet_id = some w)
    (hOld : findById st.categories txn.category_id = some oc)
    (hNew : findById st.categories req.category_id = some nc)
    (hocT : oc.type = "income" ∨ oc.type = "expense" ∨
            oc.type = "debt" ∨ oc.type = "loan")
    (hncT : nc.type = "income" ∨ nc.type = "expense" ∨
            nc.type = "debt" ∨ nc.type = "loan")
    (hOk : putTransaction st uid id req = .ok st') :
    (findById st'.wallets txn.wallet_id).map Wallet.balance =
      some (w.balance + specSign nc.type * req.ammount
            - specSign oc.type * txn.ammount) := by
  simp only [putTransaction, hTxn, hW] at hOk
  split at hOk
  · exact Except.noConfusion hOk
  split at hOk
  · exact Except.noConfusion hOk
  split at hOk
  · exact Except.noConfusion hOk
  split at hOk
  · exact Except.noConfusion hOk
  simp only [putTxnSession, hOld, hNew] at hOk
  split at hOk
  · exact Except.noConfusion hOk
  split at hOk
  · exact Except.noConfusion hOk
  cases hOk
  rw [reverse_chain_eq, apply_chain_eq]
  by_cases hz : -(specSign oc.type * txn.ammount) + specSign nc.type * req.ammount = 0
  · rw [if_neg (not_not_intro hz), hW, Option.map_some']
    congr 1
    linarith
  · rw [if_pos hz, findById_updateById_self, hW]
    simp only [Option.map_some']
    congr 1
    ring

/-- Witness for C2: updating the 50-unit expense transaction 300 to the
income category with the same amount raises wallet 1's balance from 10 to
110 — a delta of exactly +100. -/
theorem put_same_wallet_delta_witness :
    (findById (St.mk [(1, ⟨1, "Cash", 110, 0⟩)]
        [(20, ⟨1, "Salary", "income"⟩), (21, ⟨1, "Food", "expense"⟩)]
        [(300, ⟨"Lunch", "", 50, 20, 1, none, 0⟩)]).wallets 1).map Wallet.balance =
      some 110 :=
  put_same_wallet_delta
    (St.mk [(1, ⟨1, "Cash", 10, 0⟩)]
      [(20, ⟨1, "Salary", "income"⟩), (21, ⟨1, "Food", "expense"⟩)]
      [(300, ⟨"Lunch", "", 50, 21, 1, none, 0⟩)])
    1 300 ⟨"Lunch", "", 50, 20, 1, none, none⟩ _
    ⟨"Lunch", "", 50, 21, 1, none, 0⟩ ⟨1, "Cash", 10, 0⟩
    ⟨1, "Food", "expense"⟩ ⟨1, "Salary", "income"⟩
    rfl rfl rfl rfl rfl (by decide) (by decide) rfl

/-- Store for the C6 counterexample and witness: user 1 owns wallets 1
(balance 100) and 2 (balance 200); transaction 400 is a 100-unit expense
in wallet 1. -/
def c6St : St :=
  { wallets := [(1, ⟨1, "A", 100, 0⟩), (2, ⟨1, "B", 200, 0⟩)],
    categories := [(21, ⟨1, "Food", "expense"⟩)],
    transactions := [(400, ⟨"Dinner", "", 100, 21, 1, none, 0⟩)] }

/-- Counterexample for C6: moving the 100-unit expense transaction 400
from wallet 1 to wallet 2 through the FIRST PUT implementation (cited by
the claim alongside the second) leaves both balances untouched (the net
delta is 0 and is only ever applied to the source wallet) while the row
now points at wallet 2 — not the claimed source+100/destination-100
outcome. -/
theorem put_wallet_move_counterexample :
    (putTransaction c6St 1 400 ⟨"Dinner", "", 100, 21, 2, none, none⟩).toOption.map
        (fun s => ((findById s.wallets 1).map Wallet.balance,
                   (findById s.wallets 2).map Wallet.balance,
                   (findById s.transactions 400).map Txn.wallet_id)) =
      some (some 100, some 200, some 2) ∧
    ¬ ((putTransaction c6St 1 400 ⟨"Dinner", "", 100, 21, 2, none, none⟩).toOption.map
        (fun s => ((findById s.wallets 1).map Wallet.balance,
                   (findById s.wallets 2).map Wallet.balance)) =
      some (some 200, some 100)) := by
  constructor
  · rfl
  · decide

/-- C6 amended: only the SECOND PUT implementation handles a wallet move
as the claim describes: on success the source wallet's balance is
decreased by the old signed effect, the destination wallet's balance is
increased by the new signed effect, both inside the one session, and no
other wallet's row changes; the first PUT implementation instead applies
the net delta to the source wallet only and never touches the
destination. -/
theorem putV2_wallet_move_delta
    (st : St) (uid : Nat) (id : Nat) (req : UpdateReqV2) (st' : St)
    (txn : Txn) (cw tw : Wallet) (oc nc : Category) (nwid : Nat)
    (hTxn : findById st.transactions id = some txn)
    (hMove : req.wallet_id = some nwid)
    (hNe : nwid ≠ txn.wallet_id)
    (hCW : findById st.wallets txn.wallet_id = some cw)
    (hTW : findById st.wallets nwid = some tw)
    (hOld : findById st.categories txn.category_id = some oc)
    (hNewCat : (match req.category_id with
                | some c => findById st.categories c
                | none => some oc) = some nc)
    (hOk : putTransactionV2 st uid id req = .ok st') :
    (findById st'.wallets txn.wallet_id).map Wallet.balance =
      some (cw.balance - signedEffect oc.type txn.ammount) ∧
    (findById st'.wallets nwid).map Wallet.balance =
      some (tw.balance + signedEffect nc.type (req.ammount.getD txn.ammount)) ∧
    ∀ wid, wid ≠ txn.wallet_id → wid ≠ nwid →
      findById st'.wallets wid = findById st.wallets wid := by
  simp only [putTransactionV2, hTxn, hCW] at hOk
  split at hOk
  · exact Except.noConfusion hOk
  split at hOk
  · exact Except.noConfusion hOk
  split at hOk
  · exact Except.noConfusion hOk
  split at hOk
  · exact Except.noConfusion hOk
  simp only [putTxnSessionV2, hOld, hNewCat, hCW, hMove, hTW, hNe, ne_eq,
    not_false_eq_true, if_true] at hOk
  cases hOk
  refine ⟨?_, ?_, ?_⟩
  · rw [findById_updateById_ne _ _ (Ne.symm hNe), findById_updateById_self, hCW]
    simp only [Option.map_some']
    rw [reverse_balance_eq]
  · rw [findById_updateById_self, findById_updateById_ne _ _ hNe, hTW]
    simp only [Option.map_some']
    rw [apply_balance_eq]
  · intro wid h1 h2
    rw [findById_updateById_ne _ _ h2, findById_updateById_ne _ _ h1]

/-- Witness for C6 (amended): moving the 100-unit expense from wallet 1
to wallet 2 through the second PUT implementation yields source 100+100 =
200 and destination 200-100 = 100. -/
theorem putV2_wallet_move_delta_witness :
    (findById (St.mk [(1, ⟨1, "A", 200, 0⟩), (2, ⟨1, "B", 100, 0⟩)]
        [(21, ⟨1, "Food", "expense"⟩)]
        [(400, ⟨"Dinner", "", 100, 21, 2, none, 0⟩)]).wallets 1).map Wallet.balance =
      some 200 ∧
    (findById (St.mk [(1, ⟨1, "A", 200, 0⟩), (2, ⟨1, "B", 100, 0⟩)]
        [(21, ⟨1, "Food", "expense"⟩)]
        [(400, ⟨"Dinner", "", 100, 21, 2, none, 0⟩)]).wallets 2).map Wallet.balance =
      some 100 :=
  ⟨(putV2_wallet_move_delta c6St 1 400 ⟨none, none, none, none, some 2, none, none⟩ _
      ⟨"Dinner", "", 100, 21, 1, none, 0⟩ ⟨1, "A", 100, 0⟩ ⟨1, "B", 200, 0⟩
      ⟨1, "Food", "expense"⟩ ⟨1, "Food", "expense"⟩ 2
      rfl rfl (by decide) rfl rfl rfl rfl rfl).1,
   (putV2_wallet_move_delta c6St 1 400 ⟨none, none, none, none, some 2, none, none⟩ _
      ⟨"Dinner", "", 100, 21, 1, none, 0⟩ ⟨1, "A", 100, 0⟩ ⟨1, "B", 200, 0⟩
      ⟨1, "Food", "expense"⟩ ⟨1, "Food", "expense"⟩ 2
      rfl rfl (by decide) rfl rfl rfl rfl rfl).2.1⟩

theorem reverseBalanceEffect_eq (st : St) (t : Txn) (b : Int) :
    reverseBalanceEffect st t b = b - rowEffect st t := by
  unfold reverseBalanceEffect rowEffect signedEffect
  cases findById st.categories t.category_id
  · simp
  · simp only []
    split_ifs <;> ring

theorem fold_reverse_eq (st : St) (rows : List (Nat × Txn)) (b : Int) :
    rows.foldl (fun b p => reverseBalanceEffect st p.2 b) b =
      b - (rows.map (fun p => rowEffect st p.2)).sum := by
  induction rows generalizing b with
  | nil => simp
  | cons p rest ih =>
    rw [List.foldl_cons, ih, reverseBalanceEffect_eq]
    simp only [List.map_cons, List.sum_cons]
    ring

theorem findById_filter_key_ne {α : Type} (rows : List (Nat × α)) (id : Nat) :
    findById (rows.filter (fun p => decide (p.1 ≠ id))) id = none := by
  induction rows with
  | nil => rfl
  | cons p rest ih =>
    obtain ⟨k, v⟩ := p
    by_cases hk : k = id
    · subst hk
      simpa [List.filter] using ih
    · simpa [List.filter, hk, findById] using ih

/-- Store for the C3 counterexample: the 500-unit debt transaction 100
lives in wallet 1 (balance 500 after its creation); its 200-unit expense
repayment child 101 lives in wallet 2 (balance -200 after its creation). -/
def c3St : St :=
  { wallets := [(1, ⟨1, "A", 500, 0⟩), (2, ⟨1, "B", -200, 0⟩)],
    categories := [(12, ⟨1, "Debts", "debt"⟩), (10, ⟨1, "Repayment", "expense"⟩)],
    transactions := [(100, ⟨"Borrowed", "", 500, 12, 1, none, 300⟩),
                     (101, ⟨"Repayment for Borrowed", "", 200, 10, 2, some 100, 0⟩)] }

/-- Counterexample for C3: deleting parent 100 removes both rows but
reverses the child's effect on the PARENT'S wallet: wallet 1 ends at
500+200-500 = 200 instead of its never-created value 0, and wallet 2
keeps the child's -200 instead of returning to 0 — the claimed
restoration fails whenever a child lives in a different wallet. -/
theorem delete_cross_wallet_counterexample :
    (deleteTransaction c3St 1 100).toOption.map
        (fun s => ((findById s.wallets 1).map Wallet.balance,
                   (findById s.wallets 2).map Wallet.balance,
                   s.transactions)) =
      some (some 200, some (-200), []) ∧
    ¬ ((deleteTransaction c3St 1 100).toOption.map
        (fun s => ((findById s.wallets 1).map Wallet.balance,
                   (findById s.wallets 2).map Wallet.balance)) =
      some (some 0, some 0)) := by
  constructor
  · rfl
  · decide

/-- C3 amended: Delete removes every child row and the parent row in one
atomic session and subtracts from the PARENT'S wallet the parent's signed
effect and the sum of every child's signed effect (each resolved against
its current category); when all children live in the parent's wallet —
and only then — this restores that wallet's balance to its value from
before the parent and children were created. -/
theorem delete_reverses_effects
    (st : St) (uid : Nat) (id : Nat) (txn : Txn) (w : Wallet)
    (hTxn : findById st.transactions id = some txn)
    (hW : findById st.wallets txn.wallet_id = some w)
    (hOwn : w.user_id = uid) :
    ∃ st', deleteTransaction st uid id = .ok st' ∧
      (findById st'.wallets txn.wallet_id).map Wallet.balance =
        some (w.balance - rowEffect st txn
          - ((childrenOf st.transactions id).map (fun p => rowEffect st p.2)).sum) ∧
      findById st'.transactions id = none ∧
      (∀ p ∈ st'.transactions, p.2.parent_id ≠ some id) := by
  refine ⟨deleteTxnSession st id txn w, ?_, ?_, ?_, ?_⟩
  · simp only [deleteTransaction, hTxn, hW, if_neg (not_not_intro hOwn)]
  · simp only [deleteTxnSession]
    rw [findById_updateById_self, hW]
    simp only [Option.map_some']
    rw [reverseBalanceEffect_eq, fold_reverse_eq]
    congr 1
    ring
  · simp only [deleteTxnSession]
    exact findById_filter_key_ne _ _
  · intro p hp
    simp only [deleteTxnSession] at hp
    have h1 := (List.mem_filter.mp (List.mem_filter.mp hp).1).2
    simpa using h1

/-- Store for the C3 witness: the same debt/repayment pair, but the child
lives in the parent's wallet 1, whose balance 300 reflects both
creations (0 + 500 - 200). -/
def c3SameSt : St :=
  { wallets := [(1, ⟨1, "A", 300, 0⟩)],
    categories := [(12, ⟨1, "Debts", "debt"⟩), (10, ⟨1, "Repayment", "expense"⟩)],
    transactions := [(100, ⟨"Borrowed", "", 500, 12, 1, none, 300⟩),
                     (101, ⟨"Repayment for Borrowed", "", 200, 10, 1, some 100, 0⟩)] }

/-- Witness for C3 (amended): deleting parent 100 with its same-wallet
child leaves wallet 1 at 300 - 500 + 200 = 0, its never-created value,
with both rows gone. -/
theorem delete_reverses_effects_witness :
    ∃ st', deleteTransaction c3SameSt 1 100 = .ok st' ∧
      (findById st'.wallets 1).map Wallet.balance = some 0 ∧
      findById st'.transactions 100 = none ∧
      (∀ p ∈ st'.transactions, p.2.parent_id ≠ some 100) :=
  delete_reverses_effects c3SameSt 1 100 ⟨"Borrowed", "", 500, 12, 1, none, 300⟩
    ⟨1, "A", 300, 0⟩ rfl rfl rfl

/-- Store for the C8 theorem: wallet 1 has balance 0 and threshold 0, so
any expense pushes the balance to or below the threshold and triggers the
notification step. -/
def c8St : St :=
  { wallets := [(1, ⟨1, "Cash", 0, 0⟩)],
    categories := [(21, ⟨1, "Food", "expense"⟩)],
    transactions := [] }

/-- C8: the low-balance notification step of the notification-enabled
create route runs INSIDE the `DB.transaction` callback with no try/catch,
so it is not best-effort: at the failing input below (balance after the
insert is -100 ≤ threshold 0), a notification-step failure makes the
whole route return that error and roll the session back — no transaction
row or balance write survives (`.error` carries no successor store) —
whereas the very same request with a succeeding notification step commits
the insert and the -100 balance.  This contradicts the claim (and the
spec's stated intent) that a notification failure never rolls back the
committed insert and balance update. -/
theorem create_notif_failure_rolls_back :
    createTransactionNotif c8St 1 ⟨"Groceries", "", 100, 21, 1, none, none⟩ 9
        (.error ⟨"OpenAI request failed", 500⟩) =
      .error ⟨"OpenAI request failed", 500⟩ ∧
    createTransactionNotif c8St 1 ⟨"Groceries", "", 100, 21, 1, none, none⟩ 9
        (.ok ()) =
      .ok (St.mk [(1, ⟨1, "Cash", -100, 0⟩)]
        [(21, ⟨1, "Food", "expense"⟩)]
        [(9, ⟨"Groceries", "", 100, 21, 1, none, 0⟩)]) := by
  constructor
  · rfl
  · rfl

/-- The identical resubmission of a create request as an update body
(same name, description, amount, category, wallet, parent and
remaining-amount field). -/
def toUpdateReq (req : CreateReq) : UpdateReq :=
  { name := req.name, description := req.description, ammount := req.ammount,
    category_id := req.category_id, wallet_id := req.wallet_id,
    parent_id := req.parent_id, remaining_ammount := req.remaining_ammount }

/-- Resubmitting a transaction's own data through the first PUT
implementation preserves every wallet balance and every stored remaining
amount, provided the row has no parent, no other row points at it, and
its stored remaining amount is the one the update recomputes (`ammount`
for debt/loan, 0 otherwise).  A client-supplied `remaining_ammount` that
fails the recomputation check only aborts the session, which also
preserves the store. -/
theorem putTransaction_resubmit_preserves
    (st1 : St) (uid id : Nat) (row : Txn) (w1 : Wallet) (cat : Category)
    (ureq : UpdateReq)
    (hTxn : findById st1.transactions id = some row)
    (hW : findById st1.wallets row.wallet_id = some w1)
    (hWo : w1.user_id = uid)
    (hC : findById st1.categories row.category_id = some cat)
    (hA : 0 < ureq.ammount)
    (hAm : ureq.ammount = row.ammount)
    (hCat : ureq.category_id = row.category_id)
    (hWid : ureq.wallet_id = row.wallet_id)
    (hPar : ureq.parent_id = none)
    (hParRow : row.parent_id = none)
    (hKids : childrenOf st1.transactions id = [])
    (hRemRow : row.remaining_ammount =
      (if cat.type = "debt" ∨ cat.type = "loan" then row.ammount else 0)) :
    (∀ wid,
      (findById (commitOr st1 (putTransaction st1 uid id ureq)).wallets wid).map
        Wallet.balance = (findById st1.wallets wid).map Wallet.balance) ∧
    (∀ tid,
      (findById (commitOr st1 (putTransaction st1 uid id ureq)).transactions
        tid).map Txn.remaining_ammount =
      (findById st1.transactions tid).map Txn.remaining_ammount) := by
  have hC2 : findById st1.categories ureq.category_id = some cat := by
    rw [hCat]; exact hC
  have hTot : totalAmmount (childrenOf st1.transactions id) = 0 := by
    rw [hKids]; rfl
  have hPP : putParentStep st1 id row ureq = .ok st1.transactions := by
    unfold putParentStep
    rw [hPar, hParRow]
  have hMain : ∀ rem, putOwnRemaining st1 id ureq cat = .ok rem →
      putTransaction st1 uid id ureq = .ok { st1 with
        transactions := updateById st1.transactions id
          (fun _ => putRow ureq rem) } := by
    intro rem hrem
    have hAdj : ((if cat.type = "income" ∨ cat.type = "debt" then -row.ammount
          else if cat.type = "expense" ∨ cat.type = "loan" then row.ammount
          else 0) +
          (if cat.type = "income" ∨ cat.type = "debt" then ureq.ammount
          else if cat.type = "expense" ∨ cat.type = "loan" then -ureq.ammount
          else 0)) = 0 := by
      rw [hAm]; split_ifs <;> ring
    simp only [putTransaction, hTxn, hW, putTxnSession, hC, hC2, hrem, hPP,
      if_neg (not_not_intro hA), if_neg (not_not_intro hWo), hWid, hCat,
      ne_eq, not_true_eq_false, false_and, if_false, hAdj,
      not_false_eq_true, ite_true, ite_false]
  have hMainErr : ∀ e, putOwnRemaining st1 id ureq cat = .error e →
      putTransaction st1 uid id ureq = .error e := by
    intro e hrem
    simp only [putTransaction, hTxn, hW, putTxnSession, hC, hC2, hrem, hPP,
      if_neg (not_not_intro hA), if_neg (not_not_intro hWo), hWid, hCat,
      ne_eq, not_true_eq_false, false_and, if_false,
      not_false_eq_true, ite_true, ite_false]
  rcases hOR : putOwnRemaining st1 id ureq cat with e | rem
  · rw [hMainErr e hOR]
    exact ⟨fun wid => rfl, fun tid => rfl⟩
  · have hRemVal : rem = row.remaining_ammount := by
      by_cases hDL : cat.type = "debt" ∨ cat.type = "loan"
      · simp only [putOwnRemaining, if_pos hDL, hTot] at hOR
        split at hOR
        · exact Except.noConfusion hOR
        split at hOR
        · exact Except.noConfusion hOR
        rw [hRemRow, if_pos hDL]
        have := Except.ok.inj hOR
        omega
      · simp only [putOwnRemaining, if_neg hDL] at hOR
        rw [hRemRow, if_neg hDL]
        exact (Except.ok.inj hOR).symm
    rw [hMain rem hOR]
    constructor
    · intro wid
      rfl
    · intro tid
      by_cases htid : tid = id
      · subst htid
        show (findById (updateById st1.transactions tid _) tid).map _ = _
        rw [findById_updateById_self, hTxn]
        simp only [Option.map_some']
        rw [hRemVal]
        rfl
      · show (findById (updateById st1.transactions id _) tid).map _ = _
        rw [findById_updateById_ne _ _ htid]

/-- C7 amended: Create followed by an Update that resubmits the identical
data leaves every wallet balance and every transaction's
`remaining_ammount` at their post-Create values, PROVIDED the create
carried no `parent_id` and did not pair a nonzero client-supplied
`remaining_ammount` with a non-debt/loan category.  (When the create
names a parent, the update recomputes the parent's remaining amount that
the generic create never decremented — see the counterexample — and a
nonzero stored remaining on a non-debt/loan row is reset to 0.) -/
theorem create_then_identical_update_roundtrip
    (st : St) (uid : Nat) (req : CreateReq) (nid : Nat) (w : Wallet)
    (cat : Category)
    (hA : 0 < req.ammount)
    (hW : findById st.wallets req.wallet_id = some w)
    (hWo : w.user_id = uid)
    (hC : findById st.categories req.category_id = some cat)
    (hCo : cat.user_id = uid)
    (hFresh : findById st.transactions nid = none)
    (hNoKids : ∀ p ∈ st.transactions, p.2.parent_id ≠ some nid)
    (hNoParent : req.parent_id = none)
    (hRem : cat.type = "debt" ∨ cat.type = "loan" ∨
            req.remaining_ammount = none ∨ req.remaining_ammount = some 0) :
    ∃ st1, createTransaction st uid req nid = .ok st1 ∧
      (∀ wid,
        (findById (commitOr st1
          (putTransaction st1 uid nid (toUpdateReq req))).wallets wid).map
            Wallet.balance =
        (findById st1.wallets wid).map Wallet.balance) ∧
      (∀ tid,
        (findById (commitOr st1
          (putTransaction st1 uid nid (toUpdateReq req))).transactions tid).map
            Txn.remaining_ammount =
        (findById st1.transactions tid).map Txn.remaining_ammount) := by
  have hcreate : createTransaction st uid req nid = .ok { st with
      transactions := st.transactions ++ [(nid,
        { name := req.name, description := req.description,
          ammount := req.ammount, category_id := req.category_id,
          wallet_id := req.wallet_id, parent_id := req.parent_id,
          remaining_ammount :=
            if cat.type = "debt" ∨ cat.type = "loan" then req.ammount
            else match req.remaining_ammount with
                 | some r => r
                 | none => 0 })],
      wallets := updateById st.wallets req.wallet_id
        (fun x => { x with balance :=
          if cat.type = "income" ∨ cat.type = "debt" then w.balance + req.ammount
          else if cat.type = "expense" ∨ cat.type = "loan" then
            w.balance - req.ammount
          else w.balance }) } := by
    simp only [createTransaction, hW, hC, if_neg (not_not_intro hA),
      if_neg (not_not_intro hWo), if_neg (not_not_intro hCo)]
  have hTxn1 : findById (st.transactions ++ [(nid,
      { name := req.name, description := req.description,
        ammount := req.ammount, category_id := req.category_id,
        wallet_id := req.wallet_id, parent_id := req.parent_id,
        remaining_ammount :=
          if cat.type = "debt" ∨ cat.type = "loan" then req.ammount
          else match req.remaining_ammount with
               | some r => r
               | none => 0 })]) nid = some
      { name := req.name, description := req.description,
        ammount := req.ammount, category_id := req.category_id,
        wallet_id := req.wallet_id, parent_id := req.parent_id,
        remaining_ammount :=
          if cat.type = "debt" ∨ cat.type = "loan" then req.ammount
          else match req.remaining_ammount with
               | some r => r
               | none => 0 } := by
    rw [findById_append_of_none _ hFresh, findById, if_pos rfl]
  have hW1 : findById (updateById st.wallets req.wallet_id
      (fun x => { x with balance :=
        if cat.type = "income" ∨ cat.type = "debt" then w.balance + req.ammount
        else if cat.type = "expense" ∨ cat.type = "loan" then
          w.balance - req.ammount
        else w.balance })) req.wallet_id = some { w with balance :=
          if cat.type = "income" ∨ cat.type = "debt" then w.balance + req.ammount
          else if cat.type = "expense" ∨ cat.type = "loan" then
            w.balance - req.ammount
          else w.balance } := by
    rw [findById_updateById_self, hW]
    rfl
  have hKids1 : childrenOf (st.transactions ++ [(nid,
      { name := req.name, description := req.description,
        ammount := req.ammount, category_id := req.category_id,
        wallet_id := req.wallet_id, parent_id := req.parent_id,
        remaining_ammount :=
          if cat.type = "debt" ∨ cat.type = "loan" then req.ammount
          else match req.remaining_ammount with
               | some r => r
               | none => 0 })]) nid = [] := by
    rw [childrenOf_append, childrenOf_eq_nil hNoKids]
    simp [childrenOf, hNoParent]
  have hRemRow1 : (if cat.type = "debt" ∨ cat.type = "loan" then req.ammount
      else match req.remaining_ammount with
           | some r => r
           | none => 0) =
      (if cat.type = "debt" ∨ cat.type = "loan" then req.ammount else 0) := by
    by_cases hDL : cat.type = "debt" ∨ cat.type = "loan"
    · rw [if_pos hDL, if_pos hDL]
    · rw [if_neg hDL, if_neg hDL]
      rcases hRem with h | h | h | h
      · exact absurd (Or.inl h) hDL
      · exact absurd (Or.inr h) hDL
      · rw [h]
      · rw [h]
  obtain ⟨L, R⟩ := putTransaction_resubmit_preserves
    { st with
      transactions := st.transactions ++ [(nid,
        { name := req.name, description := req.description,
          ammount := req.ammount, category_id := req.category_id,
          wallet_id := req.wallet_id, parent_id := req.parent_id,
          remaining_ammount :=
            if cat.type = "debt" ∨ cat.type = "loan" then req.ammount
            else match req.remaining_ammount with
                 | some r => r
                 | none => 0 })],
      wallets := updateById st.wallets req.wallet_id
        (fun x => { x with balance :=
          if cat.type = "income" ∨ cat.type = "debt" then w.balance + req.ammount
          else if cat.type = "expense" ∨ cat.type = "loan" then
            w.balance - req.ammount
          else w.balance }) }
    uid nid _ _ cat (toUpdateReq req)
    hTxn1 hW1 hWo hC hA rfl rfl rfl hNoParent hNoParent hKids1 hRemRow1
  exact ⟨_, hcreate, L, R⟩

/-- Store for the C7 counterexample: user 1 owns wallet 1, a debt
category 12, an expense category 10, and the 500-unit debt transaction
100 with remaining 500. -/
def c7St : St :=
  { wallets := [(1, ⟨1, "W", 0, 0⟩)],
    categories := [(12, ⟨1, "Debts", "debt"⟩), (10, ⟨1, "Repayment", "expense"⟩)],
    transactions := [(100, ⟨"Borrowed", "", 500, 12, 1, none, 500⟩)] }

/-- Counterexample for C7: creating a 200-unit expense child of debt 100
through the generic create leaves the parent's remaining at 500 (the
generic create never decrements a parent), but resubmitting the identical
data as an update recomputes it to 500-200 = 300 — the round trip changes
the parent's `remaining_ammount`. -/
theorem create_update_roundtrip_counterexample :
    (createTransaction c7St 1 ⟨"Repay", "", 200, 10, 1, some 100, none⟩ 101).toOption.map
        (fun s => (findById s.transactions 100).map Txn.remaining_ammount) =
      some (some 500) ∧
    ((createTransaction c7St 1 ⟨"Repay", "", 200, 10, 1, some 100, none⟩ 101).bind
        (fun s1 => putTransaction s1 1 101 ⟨"Repay", "", 200, 10, 1, some 100, none⟩)).toOption.map
        (fun s => (findById s.transactions 100).map Txn.remaining_ammount) =
      some (some 300) ∧
    ¬ (((createTransaction c7St 1 ⟨"Repay", "", 200, 10, 1, some 100, none⟩ 101).bind
        (fun s1 => putTransaction s1 1 101 ⟨"Repay", "", 200, 10, 1, some 100, none⟩)).toOption.map
        (fun s => (findById s.transactions 100).map Txn.remaining_ammount) =
      some (some 500)) := by
  refine ⟨rfl, rfl, ?_⟩
  decide

/-- Witness for C7 (amended): creating a 500-unit debt with no parent in
a fresh store and resubmitting the identical data leaves wallet balances
and remaining amounts untouched. -/
theorem create_then_identical_update_roundtrip_witness :
    ∃ st1, createTransaction
        (St.mk [(1, ⟨1, "W", 0, 0⟩)] [(12, ⟨1, "Debts", "debt"⟩)] [])
        1 ⟨"Borrowed", "", 500, 12, 1, none, none⟩ 100 = .ok st1 ∧
      (∀ wid,
        (findById (commitOr st1 (putTransaction st1 1 100
          (toUpdateReq ⟨"Borrowed", "", 500, 12, 1, none, none⟩))).wallets wid).map
            Wallet.balance =
        (findById st1.wallets wid).map Wallet.balance) ∧
      (∀ tid,
        (findById (commitOr st1 (putTransaction st1 1 100
          (toUpdateReq ⟨"Borrowed", "", 500, 12, 1, none, none⟩))).transactions tid).map
            Txn.remaining_ammount =
        (findById st1.transactions tid).map Txn.remaining_ammount) :=
  create_then_identical_update_roundtrip
    (St.mk [(1, ⟨1, "W", 0, 0⟩)] [(12, ⟨1, "Debts", "debt"⟩)] [])
    1 ⟨"Borrowed", "", 500, 12, 1, none, none⟩ 100 ⟨1, "W", 0, 0⟩
    ⟨1, "Debts", "debt"⟩ (by decide) rfl rfl rfl rfl rfl
    (by intro p hp; cases hp) rfl (Or.inr (Or.inr (Or.inl rfl)))

end SpendLedger
